import Mathlib

/-!
Verification of the schedule diff engine of `watchlibrus`
(`src/watchlibrus/lessonplan.py`), shallowly embedded in Lean 4.

The embedding follows the Python source: `Lesson`, `LessonDelta` (whose
constructor rejects a delta with both sides absent), `LessonPlanComparison`,
the three-valued `compare_lessons`, serialization (`Lesson.to_dict`,
`Lesson.from_dict`, `LessonPlan.to_list`, `LessonPlan.from_dict_list`) and
the two-pass `LessonPlan.compare`.  Python loops with `break` become
structural recursions; the exception raised by the `LessonDelta` constructor
becomes the `Except` monad.
-/

/-- One scheduled class occurrence (dataclass `Lesson` in the source). -/
structure Lesson where
  day : Int
  hour : Int
  name : String
  time : String
  teacher : Option String
  classroom : Option String
deriving DecidableEq

/-- The persisted record shape produced by `Lesson.to_dict`: a dict with
keys name, day, hour, time, classroom, teacher. -/
structure LessonRecord where
  name : String
  day : Int
  hour : Int
  time : String
  classroom : Option String
  teacher : Option String
deriving DecidableEq

/-- Source `Lesson.to_dict`. -/
def Lesson.to_dict (l : Lesson) : LessonRecord :=
  { name := l.name, day := l.day, hour := l.hour, time := l.time,
    classroom := l.classroom, teacher := l.teacher }

/-- Source `Lesson.from_dict`. -/
def Lesson.from_dict (d : LessonRecord) : Lesson :=
  { name := d.name, day := d.day, hour := d.hour, time := d.time,
    classroom := d.classroom, teacher := d.teacher }

/-- A single reported change (dataclass `LessonDelta`): `l1` is the previous
lesson, `l2` the new one. -/
structure LessonDelta where
  l1 : Option Lesson
  l2 : Option Lesson
deriving DecidableEq

/-- Source `LessonDelta.__init__`: raises `ValueError` when both `l1` and
`l2` are `None` (a `Lesson` value is always truthy in Python, so `not l1`
means `l1 is None`), otherwise stores the two fields. -/
def LessonDelta.init (a b : Option Lesson) : Except String LessonDelta :=
  if a.isNone && b.isNone then
    Except.error "Either l1 or l2 must not be None"
  else
    Except.ok { l1 := a, l2 := b }

/-- The ordered list of deltas produced by one comparison
(dataclass `LessonPlanComparison`). -/
structure LessonPlanComparison where
  lesson_deltas : List LessonDelta
deriving DecidableEq

/-- Source `LessonPlanComparison.is_change`. -/
def LessonPlanComparison.is_change (c : LessonPlanComparison) : Bool :=
  c.lesson_deltas.length > 0

/-- The three-valued comparison result (enum `LessonCompareResult`). -/
inductive LessonCompareResult where
  | DIFFERENT
  | EQUALS
  | OTHER
deriving DecidableEq

/-- Source `compare_lessons`: `EQUALS` when slot and content coincide,
`DIFFERENT` for same slot with different content, `OTHER` otherwise. -/
def compare_lessons (l1 l2 : Lesson) : LessonCompareResult :=
  if (l1.day, l1.hour) = (l2.day, l2.hour) then
    if (l1.time, l1.name, l1.teacher, l1.classroom)
        = (l2.time, l2.name, l2.teacher, l2.classroom) then
      LessonCompareResult.EQUALS
    else
      LessonCompareResult.DIFFERENT
  else
    LessonCompareResult.OTHER

/-- An ordered collection of lessons (dataclass `LessonPlan`). -/
structure LessonPlan where
  lessons : List Lesson
deriving DecidableEq

/-- Source `LessonPlan.to_list`. -/
def LessonPlan.to_list (p : LessonPlan) : List LessonRecord :=
  p.lessons.map Lesson.to_dict

/-- Source `LessonPlan.from_dict_list`. -/
def LessonPlan.from_dict_list (ds : List LessonRecord) : LessonPlan :=
  ⟨ds.map Lesson.from_dict⟩

/-- Source `LessonPlan.filter_by_day`. -/
def LessonPlan.filter_by_day (p : LessonPlan) (day : Int) : LessonPlan :=
  ⟨p.lessons.filter (fun l => l.day == day)⟩

/-- Inner loop of Pass 1 of `LessonPlan.compare`, for a fixed old lesson
`l1`, scanning the new plan: on the first non-`OTHER` comparison the loop
breaks, emitting `LessonDelta(l1, l2)` if it was `DIFFERENT` and nothing if
it was `EQUALS`; when the loop ends without a break, the removal delta
`LessonDelta(l1, None)` is emitted. -/
def scanNewLoop (l1 : Lesson) : List Lesson → Except String (Option LessonDelta)
  | [] =>
    match LessonDelta.init (some l1) none with
    | Except.error e => Except.error e
    | Except.ok d => Except.ok (some d)
  | l2 :: rest =>
    match compare_lessons l1 l2 with
    | LessonCompareResult.DIFFERENT =>
      match LessonDelta.init (some l1) (some l2) with
      | Except.error e => Except.error e
      | Except.ok d => Except.ok (some d)
    | LessonCompareResult.EQUALS => Except.ok none
    | LessonCompareResult.OTHER => scanNewLoop l1 rest

/-- Inner loop of Pass 2 of `LessonPlan.compare`, for a fixed new lesson
`l2`, scanning the old plan: it breaks with `True` on any comparison that
is `DIFFERENT` or `EQUALS`. -/
def scanOldLoop (l2 : Lesson) : List Lesson → Bool
  | [] => false
  | l1 :: rest =>
    match compare_lessons l1 l2 with
    | LessonCompareResult.DIFFERENT => true
    | LessonCompareResult.EQUALS => true
    | LessonCompareResult.OTHER => scanOldLoop l2 rest

/-- Pass 1 of `LessonPlan.compare`: iterate the old plan, appending the
delta (if any) produced for each old lesson by the inner scan of the new
plan. -/
def pass1 : List Lesson → List Lesson → Except String (List LessonDelta)
  | [], _ => Except.ok []
  | l1 :: rest, new =>
    match scanNewLoop l1 new with
    | Except.error e => Except.error e
    | Except.ok d? =>
      match pass1 rest new with
      | Except.error e => Except.error e
      | Except.ok ds =>
        Except.ok
          (match d? with
           | some d => d :: ds
           | none => ds)

/-- Pass 2 of `LessonPlan.compare`: iterate the new plan, appending the
addition delta `LessonDelta(None, l2)` for each new lesson with no
non-`OTHER` match in the old plan. -/
def pass2 (old : List Lesson) : List Lesson → Except String (List LessonDelta)
  | [] => Except.ok []
  | l2 :: rest =>
    if scanOldLoop l2 old then
      pass2 old rest
    else
      match LessonDelta.init none (some l2) with
      | Except.error e => Except.error e
      | Except.ok d =>
        match pass2 old rest with
        | Except.error e => Except.error e
        | Except.ok ds => Except.ok (d :: ds)

/-- Source `LessonPlan.compare`: Pass 1 (modifications and removals) over
the old plan `p`, then Pass 2 (pure additions) over the new plan `other`,
with the delta-constructor error threaded through `Except`. -/
def LessonPlan.compare (p other : LessonPlan) : Except String LessonPlanComparison :=
  match pass1 p.lessons other.lessons with
  | Except.error e => Except.error e
  | Except.ok mods =>
    match pass2 p.lessons other.lessons with
    | Except.error e => Except.error e
    | Except.ok adds => Except.ok ⟨mods ++ adds⟩

/-! Spec-side vocabulary: the specification speaks of the `(day, hour)`
slot and of content equality on `(time, name, teacher, classroom)`.  The
following definitions follow the spec's words and are used to state the
claims about the code-derived definitions above. -/

/-- Spec notion: two lessons occupy the same `(day, hour)` slot. -/
def sameSlot (a b : Lesson) : Bool :=
  a.day == b.day && a.hour == b.hour

/-- Spec notion: exact content match on `(time, name, teacher, classroom)`. -/
def sameContent (a b : Lesson) : Bool :=
  a.time == b.time && a.name == b.name
    && a.teacher == b.teacher && a.classroom == b.classroom

/-- Spec description of Pass 1 for one old lesson: the first lesson of the
new plan sharing the slot decides the outcome. -/
def pass1SpecFun (new : List Lesson) (l1 : Lesson) : Option LessonDelta :=
  match new.find? (fun l2 => sameSlot l1 l2) with
  | none => some ⟨some l1, none⟩
  | some l2 => if sameContent l1 l2 then none else some ⟨some l1, some l2⟩

/-- Spec description of Pass 2 for one new lesson: an addition delta is
emitted exactly when no old lesson occupies its slot. -/
def pass2SpecFun (old : List Lesson) (l2 : Lesson) : Option LessonDelta :=
  if old.any (fun l1 => sameSlot l1 l2) then none else some ⟨none, some l2⟩

/-! Helper lemmas relating the code to the spec vocabulary. -/

lemma sameSlot_iff (a b : Lesson) :
    sameSlot a b = true ↔ (a.day, a.hour) = (b.day, b.hour) := by
  simp [sameSlot, Prod.ext_iff]

lemma sameContent_iff (a b : Lesson) :
    sameContent a b = true ↔
      (a.time, a.name, a.teacher, a.classroom)
        = (b.time, b.name, b.teacher, b.classroom) := by
  simp [sameContent, Prod.ext_iff, and_assoc]

lemma sameSlot_refl (a : Lesson) : sameSlot a a = true := by
  simp [sameSlot]

lemma compare_lessons_eq_spec (l1 l2 : Lesson) :
    compare_lessons l1 l2 =
      (if sameSlot l1 l2 then
        (if sameContent l1 l2 then LessonCompareResult.EQUALS
         else LessonCompareResult.DIFFERENT)
       else LessonCompareResult.OTHER) := by
  unfold compare_lessons
  by_cases hs : sameSlot l1 l2 = true
  · rw [if_pos hs, if_pos ((sameSlot_iff _ _).1 hs)]
    by_cases hc : sameContent l1 l2 = true
    · rw [if_pos hc, if_pos ((sameContent_iff _ _).1 hc)]
    · rw [if_neg hc, if_neg (fun hh => hc ((sameContent_iff _ _).2 hh))]
  · rw [if_neg hs, if_neg (fun hh => hs ((sameSlot_iff _ _).2 hh))]

lemma compare_lessons_other_iff (l1 l2 : Lesson) :
    compare_lessons l1 l2 = LessonCompareResult.OTHER ↔ sameSlot l1 l2 = false := by
  rw [compare_lessons_eq_spec]
  cases hs : sameSlot l1 l2 <;> cases hc : sameContent l1 l2 <;> simp

lemma compare_lessons_equals_iff (l1 l2 : Lesson) :
    compare_lessons l1 l2 = LessonCompareResult.EQUALS ↔
      sameSlot l1 l2 = true ∧ sameContent l1 l2 = true := by
  rw [compare_lessons_eq_spec]
  cases hs : sameSlot l1 l2 <;> cases hc : sameContent l1 l2 <;> simp

lemma compare_lessons_different_iff (l1 l2 : Lesson) :
    compare_lessons l1 l2 = LessonCompareResult.DIFFERENT ↔
      sameSlot l1 l2 = true ∧ sameContent l1 l2 = false := by
  rw [compare_lessons_eq_spec]
  cases hs : sameSlot l1 l2 <;> cases hc : sameContent l1 l2 <;> simp

lemma lessonDelta_init_ok (a b : Option Lesson) (h : a.isSome || b.isSome) :
    LessonDelta.init a b = Except.ok ⟨a, b⟩ := by
  unfold LessonDelta.init
  cases a <;> cases b <;> simp_all

lemma scanNewLoop_eq_spec (l1 : Lesson) : ∀ new : List Lesson,
    scanNewLoop l1 new = Except.ok (pass1SpecFun new l1)
  | [] => rfl
  | l2 :: rest => by
    have ih := scanNewLoop_eq_spec l1 rest
    simp only [scanNewLoop, pass1SpecFun, List.find?_cons]
    rw [compare_lessons_eq_spec]
    cases hs : sameSlot l1 l2
    · simp only [Bool.false_eq_true, if_false]
      rw [ih, pass1SpecFun]
    · cases hc : sameContent l1 l2
      · simp [LessonDelta.init, hc]
      · simp [hc]

lemma scanOldLoop_eq_any (l2 : Lesson) : ∀ old : List Lesson,
    scanOldLoop l2 old = old.any (fun l1 => sameSlot l1 l2)
  | [] => rfl
  | l1 :: rest => by
    have ih := scanOldLoop_eq_any l2 rest
    simp only [scanOldLoop, List.any_cons]
    rw [compare_lessons_eq_spec]
    cases hs : sameSlot l1 l2
    · simp only [Bool.false_eq_true, if_false, Bool.false_or]
      exact ih
    · cases hc : sameContent l1 l2 <;> simp

lemma pass1_eq_spec (new : List Lesson) : ∀ old : List Lesson,
    pass1 old new = Except.ok (old.filterMap (pass1SpecFun new))
  | [] => rfl
  | l1 :: rest => by
    have ih := pass1_eq_spec new rest
    simp only [pass1, scanNewLoop_eq_spec, ih, List.filterMap_cons]
    cases h : pass1SpecFun new l1 <;> simp

lemma pass2_eq_spec (old : List Lesson) : ∀ new : List Lesson,
    pass2 old new = Except.ok (new.filterMap (pass2SpecFun old))
  | [] => rfl
  | l2 :: rest => by
    have ih := pass2_eq_spec old rest
    simp only [pass2, scanOldLoop_eq_any, pass2SpecFun, List.filterMap_cons]
    cases h : (old.any fun l1 => sameSlot l1 l2)
    · simp only [Bool.false_eq_true, if_false]
      rw [lessonDelta_init_ok none (some l2) rfl, ih]
    · simp only [if_true]
      exact ih

lemma compare_eq_spec (p other : LessonPlan) :
    LessonPlan.compare p other =
      Except.ok ⟨p.lessons.filterMap (pass1SpecFun other.lessons)
        ++ other.lessons.filterMap (pass2SpecFun p.lessons)⟩ := by
  simp only [LessonPlan.compare, pass1_eq_spec, pass2_eq_spec]

/-! Concrete fixtures used by counterexamples and witnesses. -/

/-- Fixture: lesson "A" at slot (0, 1). -/
def lessonA : Lesson := ⟨0, 1, "A", "08:00 - 08:45", none, none⟩

/-- Fixture: lesson "B", sharing slot (0, 1) with `lessonA` but with a
different name. -/
def lessonB : Lesson := ⟨0, 1, "B", "08:00 - 08:45", none, none⟩

/-- Fixture: lesson "C", also at slot (0, 1), different from both
`lessonA` and `lessonB`. -/
def lessonC : Lesson := ⟨0, 1, "C", "08:00 - 08:45", none, none⟩

/-- Fixture: a plan holding two lessons in the same `(day, hour)` slot with
different content — permitted by the data model (composite periods). -/
def dupPlan : LessonPlan := ⟨[lessonA, lessonB]⟩

/-- Fixture: a plan holding just `lessonC`. -/
def planC : LessonPlan := ⟨[lessonC]⟩

/-- Fixture: Math lesson at slot (1, 2). -/
def lessonT1 : Lesson := ⟨1, 2, "Math", "09:00 - 09:45", some "Smith", some "101"⟩

/-- Fixture: same as `lessonT1` except for the teacher. -/
def lessonT2 : Lesson := ⟨1, 2, "Math", "09:00 - 09:45", some "Jones", some "101"⟩

/-- Claim C4: `compare_lessons` is the three-valued equality policy — it
returns `OTHER` iff the `(day, hour)` slots differ; given equal slots it
returns `EQUALS` iff the `(time, name, teacher, classroom)` tuples are
exactly equal, and `DIFFERENT` otherwise. -/
theorem compare_lessons_three_valued (l1 l2 : Lesson) :
    (compare_lessons l1 l2 = LessonCompareResult.OTHER ↔
      (l1.day, l1.hour) ≠ (l2.day, l2.hour)) ∧
    ((l1.day, l1.hour) = (l2.day, l2.hour) →
      ((compare_lessons l1 l2 = LessonCompareResult.EQUALS ↔
         (l1.time, l1.name, l1.teacher, l1.classroom)
           = (l2.time, l2.name, l2.teacher, l2.classroom)) ∧
       (compare_lessons l1 l2 = LessonCompareResult.DIFFERENT ↔
         (l1.time, l1.name, l1.teacher, l1.classroom)
           ≠ (l2.time, l2.name, l2.teacher, l2.classroom)))) := by
  refine ⟨?_, fun h => ⟨?_, ?_⟩⟩
  · rw [compare_lessons_other_iff, Bool.eq_false_iff]
    exact not_congr (sameSlot_iff l1 l2)
  · rw [compare_lessons_equals_iff]
    have hs := (sameSlot_iff l1 l2).2 h
    simp [hs, sameContent_iff]
  · rw [compare_lessons_different_iff]
    have hs := (sameSlot_iff l1 l2).2 h
    simp [hs, Bool.eq_false_iff, sameContent_iff]

/-- Witness for C4: two lessons in the same slot differing only in the
teacher are classified `DIFFERENT`. -/
theorem compare_lessons_three_valued_witness :
    compare_lessons lessonT1 lessonT2 = LessonCompareResult.DIFFERENT :=
  ((compare_lessons_three_valued lessonT1 lessonT2).2 (by decide)).2.mpr (by decide)

/-- Claim C1: Pass 1 scans, for each old lesson `l1`, the new plan in its
given order for the first lesson `l2` with a non-`OTHER` comparison; a
first match that is `EQUALS` emits nothing, a first match that is
`DIFFERENT` emits exactly the delta `(l1, l2)` and stops, and absence of
any non-`OTHER` match emits the removal delta `(l1, None)`. -/
theorem pass1_first_match (old new : List Lesson) :
    pass1 old new = Except.ok (old.filterMap (fun l1 =>
      match new.find? (fun l2 => compare_lessons l1 l2 != LessonCompareResult.OTHER) with
      | none => some ⟨some l1, none⟩
      | some l2 =>
        if compare_lessons l1 l2 = LessonCompareResult.DIFFERENT
        then some ⟨some l1, some l2⟩ else none)) := by
  rw [pass1_eq_spec]
  have hfun : (fun l1 =>
      match new.find? (fun l2 => compare_lessons l1 l2 != LessonCompareResult.OTHER) with
      | none => some (⟨some l1, none⟩ : LessonDelta)
      | some l2 =>
        if compare_lessons l1 l2 = LessonCompareResult.DIFFERENT
        then some ⟨some l1, some l2⟩ else none) = pass1SpecFun new := by
    funext l1
    have hpred : (fun l2 => compare_lessons l1 l2 != LessonCompareResult.OTHER)
        = (fun l2 => sameSlot l1 l2) := by
      funext l2
      rw [compare_lessons_eq_spec]
      cases hs : sameSlot l1 l2 <;> cases hc : sameContent l1 l2 <;> rfl
    rw [hpred, pass1SpecFun]
    cases hfind : new.find? (fun l2 => sameSlot l1 l2) with
    | none => rfl
    | some l2 =>
      have hslot : sameSlot l1 l2 = true := List.find?_some hfind
      simp only [compare_lessons_eq_spec, hslot, if_true]
      cases hc : sameContent l1 l2 <;> simp [hc]
  rw [hfun]

/-- Claim C2: Pass 2 emits the addition delta `(None, l2)` for a new
lesson `l2` exactly when no old lesson has a non-`OTHER` comparison with
`l2`; a match of either kind suppresses the addition. -/
theorem pass2_addition_iff (old new : List Lesson) :
    pass2 old new = Except.ok (new.filterMap (fun l2 =>
      if old.any (fun l1 => compare_lessons l1 l2 != LessonCompareResult.OTHER)
      then none else some ⟨none, some l2⟩)) := by
  rw [pass2_eq_spec]
  have hfun : (fun l2 =>
      if old.any (fun l1 => compare_lessons l1 l2 != LessonCompareResult.OTHER)
      then none else some (⟨none, some l2⟩ : LessonDelta)) = pass2SpecFun old := by
    funext l2
    have hpred : (fun l1 => compare_lessons l1 l2 != LessonCompareResult.OTHER)
        = (fun l1 => sameSlot l1 l2) := by
      funext l1
      rw [compare_lessons_eq_spec]
      cases hs : sameSlot l1 l2 <;> cases hc : sameContent l1 l2 <;> rfl
    rw [hpred, pass2SpecFun]
  rw [hfun]

/-- Claim C8: the `LessonDelta` constructor fails when both sides are
absent and succeeds, storing both fields, whenever at least one side is
present. -/
theorem lessonDelta_init_contract (a b : Option Lesson) :
    (a = none ∧ b = none →
      LessonDelta.init a b = Except.error "Either l1 or l2 must not be None") ∧
    (a.isSome ∨ b.isSome →
      LessonDelta.init a b = Except.ok ⟨a, b⟩) := by
  constructor
  · rintro ⟨rfl, rfl⟩
    rfl
  · intro h
    apply lessonDelta_init_ok
    cases h with
    | inl h => simp [h]
    | inr h => simp [h]

/-- Witness for C8: the constructor rejects the double-`None` delta and
accepts a delta with only the old side present. -/
theorem lessonDelta_init_contract_witness :
    LessonDelta.init none none = Except.error "Either l1 or l2 must not be None" ∧
    LessonDelta.init (some lessonA) none = Except.ok ⟨some lessonA, none⟩ :=
  ⟨(lessonDelta_init_contract none none).1 ⟨rfl, rfl⟩,
   (lessonDelta_init_contract (some lessonA) none).2 (Or.inl rfl)⟩

/-- Claim C10: a single new lesson can be the `after` side of two distinct
deltas — with two old lessons sharing one slot and one new lesson at that
slot differing from both, Pass 1 pairs the same new lesson with each old
lesson, since no consumed set is kept across old lessons. -/
theorem one_new_lesson_two_deltas :
    ∃ d1 d2 : LessonDelta,
      LessonPlan.compare dupPlan planC = Except.ok ⟨[d1, d2]⟩ ∧
      d1 ≠ d2 ∧ d1.l2 = some lessonC ∧ d2.l2 = some lessonC ∧
      d1.l1 = some lessonA ∧ d2.l1 = some lessonB :=
  ⟨⟨some lessonA, some lessonC⟩, ⟨some lessonB, some lessonC⟩,
    rfl, by decide, rfl, rfl, rfl, rfl⟩

/-! Claim C3: the spec asserts `compare(P, P)` is empty for every plan,
including plans with several lessons in one slot.  The code refutes this:
with two same-slot lessons of different content, Pass 1 pairs the second
old lesson with the first new one (a `DIFFERENT` first match) and emits a
spurious modification delta. -/

/-- Counterexample for C3: for the two-lesson plan `dupPlan`, whose
lessons share slot (0, 1) but differ in name, `compare(P, P)` is not the
empty change-set (it contains the delta pairing `lessonB` with
`lessonA`). -/
theorem compare_self_dup_slot_not_empty :
    LessonPlan.compare dupPlan dupPlan ≠ Except.ok ⟨[]⟩ := by
  intro hEq
  have hval : LessonPlan.compare dupPlan dupPlan
      = Except.ok ⟨[⟨some lessonB, some lessonA⟩]⟩ := rfl
  rw [hval] at hEq
  simp at hEq

lemma compare_self_empty_aux (P : LessonPlan)
    (h : ∀ a ∈ P.lessons, ∀ b ∈ P.lessons,
      sameSlot a b = true → sameContent a b = true) :
    LessonPlan.compare P P = Except.ok ⟨[]⟩ := by
  rw [compare_eq_spec]
  have h1 : P.lessons.filterMap (pass1SpecFun P.lessons) = [] := by
    rw [List.filterMap_eq_nil_iff]
    intro l1 hl1
    rw [pass1SpecFun]
    cases hfind : P.lessons.find? (fun l2 => sameSlot l1 l2) with
    | none =>
      exact absurd (sameSlot_refl l1) (List.find?_eq_none.mp hfind l1 hl1)
    | some l2 =>
      have hslot := List.find?_some hfind
      have hmem := List.mem_of_find?_eq_some hfind
      have hcont := h l1 hl1 l2 hmem hslot
      simp [hcont]
  have h2 : P.lessons.filterMap (pass2SpecFun P.lessons) = [] := by
    rw [List.filterMap_eq_nil_iff]
    intro l2 hl2
    rw [pass2SpecFun, if_pos]
    exact List.any_eq_true.mpr ⟨l2, hl2, sameSlot_refl l2⟩
  rw [h1, h2]
  rfl

/-- Claim C3 (amended): `compare(P, P)` yields an empty change-set for any
plan `P` in which any two lessons occupying the same `(day, hour)` slot
have identical `(time, name, teacher, classroom)` content — in particular
for every plan with pairwise distinct slots; for plans with same-slot
lessons of differing content the identity fails (see the
counterexample). -/
theorem compare_self_empty (P : LessonPlan)
    (h : ∀ a ∈ P.lessons, ∀ b ∈ P.lessons,
      sameSlot a b = true → sameContent a b = true) :
    LessonPlan.compare P P = Except.ok ⟨[]⟩ :=
  compare_self_empty_aux P h

/-- Fixture: a plan with two lessons in distinct slots. -/
def twoSlotPlan : LessonPlan :=
  ⟨[lessonT1, ⟨0, 4, "PE", "10:30 - 11:15", some "Wilson", some "GYM"⟩]⟩

/-- Witness for the amended C3: a plan with two distinct slots compares
to itself as no-change. -/
theorem compare_self_empty_witness :
    LessonPlan.compare twoSlotPlan twoSlotPlan = Except.ok ⟨[]⟩ :=
  compare_self_empty twoSlotPlan (by decide)

lemma pass1SpecFun_eq_some {new : List Lesson} {l1 : Lesson} {d : LessonDelta}
    (h : pass1SpecFun new l1 = some d) :
    d.l1 = some l1 ∧ (d.l2 = none ∨ ∃ l2, d.l2 = some l2 ∧ sameSlot l1 l2 = true) := by
  rw [pass1SpecFun] at h
  split at h
  · injection h with h
    subst h
    exact ⟨rfl, Or.inl rfl⟩
  · rename_i l2 hfind
    split at h
    · exact Option.noConfusion h
    · injection h with h
      subst h
      exact ⟨rfl, Or.inr ⟨l2, rfl, List.find?_some hfind⟩⟩

lemma pass2SpecFun_eq_some {old : List Lesson} {l2 : Lesson} {d : LessonDelta}
    (h : pass2SpecFun old l2 = some d) :
    d.l1 = none ∧ d.l2 = some l2 := by
  rw [pass2SpecFun] at h
  split at h
  · exact Option.noConfusion h
  · injection h with h
    subst h
    exact ⟨rfl, rfl⟩

/-- Claim C5: slot isolation — every delta produced by `compare` with both
sides present pairs two lessons occupying the same `(day, hour)` slot. -/
theorem compare_slot_isolation (old new : LessonPlan) (c : LessonPlanComparison)
    (hc : LessonPlan.compare old new = Except.ok c) :
    ∀ d ∈ c.lesson_deltas, ∀ a b : Lesson,
      d.l1 = some a → d.l2 = some b → (a.day, a.hour) = (b.day, b.hour) := by
  rw [compare_eq_spec] at hc
  injection hc with hc
  subst hc
  intro d hd a b ha hb
  rcases List.mem_append.1 hd with h1 | h2
  · rcases List.mem_filterMap.1 h1 with ⟨l1, _, hf⟩
    rcases pass1SpecFun_eq_some hf with ⟨hd1, hd2 | ⟨l2, hd2, hslot⟩⟩
    · rw [hd2] at hb
      exact Option.noConfusion hb
    · rw [hd1] at ha
      rw [hd2] at hb
      injection ha with ha
      injection hb with hb
      subst ha
      subst hb
      exact (sameSlot_iff _ _).1 hslot
  · rcases List.mem_filterMap.1 h2 with ⟨l2, _, hf⟩
    rcases pass2SpecFun_eq_some hf with ⟨hd1, _⟩
    rw [hd1] at ha
    exact Option.noConfusion ha

/-- Witness for C5: the one delta of a concrete one-slot comparison pairs
two lessons with equal slots. -/
theorem compare_slot_isolation_witness :
    (lessonT1.day, lessonT1.hour) = (lessonT2.day, lessonT2.hour) :=
  compare_slot_isolation ⟨[lessonT1]⟩ ⟨[lessonT2]⟩
    ⟨[⟨some lessonT1, some lessonT2⟩]⟩ rfl
    ⟨some lessonT1, some lessonT2⟩ (by simp) lessonT1 lessonT2 rfl rfl

/-! Fixtures for the mixed-batch example of Claim C6. -/

/-- Fixture: old Math lesson at slot (0, 1). -/
def oldMath : Lesson := ⟨0, 1, "Math", "08:00 - 08:45", some "Smith", some "101"⟩

/-- Fixture: the same Math lesson with changed teacher and room. -/
def newMath : Lesson := ⟨0, 1, "Math", "08:00 - 08:45", some "Jones", some "102"⟩

/-- Fixture: old Physics lesson at slot (0, 2), absent from the new plan. -/
def oldPhysics : Lesson := ⟨0, 2, "Physics", "08:50 - 09:35", some "Johnson", some "LAB1"⟩

/-- Fixture: old English lesson at slot (0, 3). -/
def oldEnglish : Lesson := ⟨0, 3, "English", "09:40 - 10:25", some "Brown", some "201"⟩

/-- Fixture: new French lesson replacing English at slot (0, 3). -/
def newFrench : Lesson := ⟨0, 3, "French", "09:40 - 10:25", some "Martin", some "202"⟩

/-- Fixture: new PE lesson at slot (0, 4), absent from the old plan. -/
def newPE : Lesson := ⟨0, 4, "PE", "10:30 - 11:15", some "Wilson", some "GYM"⟩

/-- Fixture: the mixed-batch old plan. -/
def mixedOld : LessonPlan := ⟨[oldMath, oldPhysics, oldEnglish]⟩

/-- Fixture: the mixed-batch new plan. -/
def mixedNew : LessonPlan := ⟨[newMath, newFrench, newPE]⟩

/-- Claim C6: the change-set is the block of modification and removal
deltas in old-plan order followed by the block of addition deltas in
new-plan order (both blocks arise as order-preserving `filterMap`s of the
corresponding plan); on the concrete mixed batch the result is exactly the
four deltas Math modified, Physics removed, English to French, PE added,
in that order. -/
theorem compare_output_ordering :
    (∀ old new : LessonPlan, ∃ mods adds : List LessonDelta,
        LessonPlan.compare old new = Except.ok ⟨mods ++ adds⟩ ∧
        mods = old.lessons.filterMap (pass1SpecFun new.lessons) ∧
        adds = new.lessons.filterMap (pass2SpecFun old.lessons)) ∧
    LessonPlan.compare mixedOld mixedNew =
      Except.ok ⟨[⟨some oldMath, some newMath⟩, ⟨some oldPhysics, none⟩,
        ⟨some oldEnglish, some newFrench⟩, ⟨none, some newPE⟩]⟩ :=
  ⟨fun old new => ⟨_, _, compare_eq_spec old new, rfl, rfl⟩, rfl⟩

/-- Claim C7: `compare` is total — it returns an `ok` result on any two
plans, every delta it produces has at least one side present (the
constructor's error branch is unreachable), and comparing two empty plans
yields the empty, no-change result. -/
theorem compare_total_no_invalid_delta :
    (∀ old new : LessonPlan, ∃ c : LessonPlanComparison,
        LessonPlan.compare old new = Except.ok c ∧
        c.lesson_deltas.all (fun d => d.l1.isSome || d.l2.isSome) = true) ∧
    LessonPlan.compare ⟨[]⟩ ⟨[]⟩ = Except.ok ⟨[]⟩ ∧
    LessonPlanComparison.is_change ⟨[]⟩ = false := by
  refine ⟨fun old new => ⟨_, compare_eq_spec old new, ?_⟩, rfl, rfl⟩
  rw [List.all_eq_true]
  intro d hd
  rcases List.mem_append.1 hd with h1 | h2
  · rcases List.mem_filterMap.1 h1 with ⟨l1, _, hf⟩
    rcases pass1SpecFun_eq_some hf with ⟨hd1, _⟩
    simp [hd1]
  · rcases List.mem_filterMap.1 h2 with ⟨l2, _, hf⟩
    rcases pass2SpecFun_eq_some hf with ⟨_, hd2⟩
    simp [hd2]

/-! Claim C9: serialization is indeed lossless — the deserialized plan is
structurally equal to the original — but the spec's conclusion that it
"compares as no-change against the original" for every plan fails for the
same duplicate-slot plans that break the identity property of C3, since
the round-tripped plan equals the original and `compare(P, P)` is not
always empty. -/

/-- Counterexample for C9: for `dupPlan` the round-trip through the
persisted record shape returns the plan unchanged, yet comparing the
round-tripped plan against the original is not a no-change result. -/
theorem roundtrip_dup_slot_not_nochange :
    LessonPlan.from_dict_list (LessonPlan.to_list dupPlan) = dupPlan ∧
    LessonPlan.compare dupPlan (LessonPlan.from_dict_list (LessonPlan.to_list dupPlan))
      ≠ Except.ok ⟨[]⟩ := by
  refine ⟨rfl, ?_⟩
  intro hEq
  have hval : LessonPlan.compare dupPlan (LessonPlan.from_dict_list (LessonPlan.to_list dupPlan))
      = Except.ok ⟨[⟨some lessonB, some lessonA⟩]⟩ := rfl
  rw [hval] at hEq
  simp at hEq

/-- Claim C9 (amended): serializing a plan with `to_list` and
deserializing with `from_dict_list` is lossless — it yields a plan
structurally equal to the original — and therefore compares as no-change
against the original for every plan in which same-slot lessons have
identical content; for duplicate-slot plans with differing content the
no-change conclusion fails exactly as the identity of C3 does. -/
theorem roundtrip_lossless (P : LessonPlan) :
    LessonPlan.from_dict_list (LessonPlan.to_list P) = P ∧
    ((∀ a ∈ P.lessons, ∀ b ∈ P.lessons,
        sameSlot a b = true → sameContent a b = true) →
      LessonPlan.compare P (LessonPlan.from_dict_list (LessonPlan.to_list P))
        = Except.ok ⟨[]⟩) := by
  have hrt : LessonPlan.from_dict_list (LessonPlan.to_list P) = P := by
    cases P with
    | mk ls =>
      simp only [LessonPlan.to_list, LessonPlan.from_dict_list, List.map_map]
      congr 1
      have hid : Lesson.from_dict ∘ Lesson.to_dict = id := by
        funext l
        cases l
        rfl
      rw [hid, List.map_id]
  refine ⟨hrt, fun h => ?_⟩
  rw [hrt]
  exact compare_self_empty_aux P h

/-- Witness for the amended C9: the two-slot plan round-trips to itself
and compares as no-change. -/
theorem roundtrip_lossless_witness :
    LessonPlan.from_dict_list (LessonPlan.to_list twoSlotPlan) = twoSlotPlan ∧
    LessonPlan.compare twoSlotPlan
      (LessonPlan.from_dict_list (LessonPlan.to_list twoSlotPlan)) = Except.ok ⟨[]⟩ :=
  ⟨(roundtrip_lossless twoSlotPlan).1,
   (roundtrip_lossless twoSlotPlan).2 (by decide)⟩
